import Mathlib

/-!
Verification of the sample Python web service in
`src/magic_sleeve/sample-python-app/app.py` against its specification.

The program is a minimal Flask application:

* `app = Flask(__name__)` creates the application;
* the decorator `@app.route("/")` registers the single view function
  `hello`, whose body is
  `return f"Hello from Odigos Sample App! Running in {os.getenv('HOSTNAME')}"`;
* the main guard calls `app.run(host="0.0.0.0", port=8080)`.

The embedding models the process environment as a map from variable names
to optional string values, the route table as the list of registered
(path, view) pairs, and request dispatch as a lookup in that table: a
matching view produces an HTTP 200 response whose body is the returned
string, and a miss produces the framework default 404 not-found response.
-/

namespace SampleApp

/-- The process environment: a map from variable names to values.
`os.getenv` returns the value when the variable is set and Python `None`
(here `Option.none`) when it is unset. -/
abbrev Env : Type := String → Option String

/-- Embedding of `os.getenv(name)`: look the name up in the current
process environment; total, never raises. -/
def getenv (env : Env) (name : String) : Option String := env name

/-- Rendering of an `Option String` inside a Python f-string:
a present value renders as itself, an absent value is Python `None`
and renders as the four characters "None". -/
def pyFormatOpt : Option String → String
  | some v => v
  | none => "None"

/-- The literal text of the f-string in `hello` up to the interpolation
point (app.py line 8), including the trailing space. -/
def greetingHead : String := "Hello from Odigos Sample App! Running in "

/-- The view function `hello` (app.py lines 6-8): the string returned to
the client for a request to the root path, computed from the process
environment present at the moment the request is handled. -/
def hello (env : Env) : String :=
  greetingHead ++ pyFormatOpt (getenv env "HOSTNAME")

/-- The body of `hello` written with Python exception flow made explicit.
Every operation in the body is total: `os.getenv` on an absent key
returns `None` rather than raising, and f-string formatting of any value
is total, so the only reachable outcome is `Except.ok`. -/
def helloE (env : Env) : Except String String :=
  Except.ok (greetingHead ++ pyFormatOpt (getenv env "HOSTNAME"))

/-- An incoming HTTP request: the path routed on, and the rest of the
request (method line, headers, query, body), which the application never
inspects. -/
structure Request where
  path : String
  payload : String
deriving Repr, DecidableEq

/-- An HTTP response: numeric status code and body text. -/
structure Response where
  status : Nat
  body : String
deriving Repr, DecidableEq

/-- The application's route table: the decorator `@app.route("/")`
(app.py line 6) registers exactly one (path, view) pair. -/
def routeTable : List (String × (Env → String)) := [("/", hello)]

/-- Modelled from the spec: the framework default not-found response body
produced when no registered route matches; the werkzeug code that renders
it is framework code, not part of this repository. -/
def notFoundBody : String :=
  "404 Not Found: The requested URL was not found on the server."

/-- Request dispatch as Flask performs it: look the request path up among
the registered routes; on a match, call the view and wrap its returned
string in a 200 response; on a miss, return the framework default 404
not-found response. The environment argument is the process environment
at the moment this request is handled. -/
def handleRequest (env : Env) (req : Request) : Response :=
  match routeTable.find? (fun p => p.1 == req.path) with
  | some p => ⟨200, p.2 env⟩
  | none => ⟨404, notFoundBody⟩

/-- The full mutable state of the process visible to the handler: the
process environment is the only ambient state the program touches. -/
structure ProcState where
  environ : Env

/-- The view function `hello` with state passing made explicit: it reads
the environment out of the process state and returns the state unchanged
(the body performs no assignment, no environment write, no external
call). -/
def helloS (st : ProcState) : String × ProcState :=
  (greetingHead ++ pyFormatOpt (getenv st.environ "HOSTNAME"), st)

/-- The stateful route table corresponding to `routeTable`. -/
def routeTableS : List (String × (ProcState → String × ProcState)) :=
  [("/", helloS)]

/-- Request dispatch with state passing made explicit: same lookup as
`handleRequest`, threading the process state through the view. -/
def handleRequestS (st : ProcState) (req : Request) : Response × ProcState :=
  match routeTableS.find? (fun p => p.1 == req.path) with
  | some p =>
      let r := p.2 st
      (⟨200, r.1⟩, r.2)
  | none => (⟨404, notFoundBody⟩, st)

/-- The host and port passed to `app.run`. -/
structure RunConfig where
  host : String
  port : Nat
deriving Repr, DecidableEq

/-- The configuration of the `app.run(host="0.0.0.0", port=8080)` call in
the main guard (app.py line 11). -/
def mainRunConfig : RunConfig := ⟨"0.0.0.0", 8080⟩

/-- Modelled from the spec: server startup binds the configured port and
succeeds exactly when that port is free; binding an occupied port is a
fatal startup error surfaced by the hosting runtime. The socket code is
framework and OS code, not part of this repository. `occupied` says which
ports are already taken when startup is attempted. -/
def startServer (occupied : Nat → Bool) (cfg : RunConfig) : Except String Unit :=
  if occupied cfg.port then Except.error "Address already in use" else Except.ok ()

/-! Sample concrete inputs used by the witness theorems. -/

/-- An environment in which HOSTNAME is set to "pod-1". -/
def envSet : Env := fun n => if n = "HOSTNAME" then some "pod-1" else none

/-- An environment in which HOSTNAME is set to "pod-2". -/
def envSet2 : Env := fun n => if n = "HOSTNAME" then some "pod-2" else none

/-- An environment in which HOSTNAME is unset. -/
def envUnset : Env := fun _ => none

/-- A request to the root path. -/
def reqRoot : Request := ⟨"/", "GET / HTTP/1.1"⟩

/-- A second request to the root path with different contents. -/
def reqRoot2 : Request := ⟨"/", "GET /?q=1 HTTP/1.1 body"⟩

/-- A request to a path that is not the root path. -/
def reqOther : Request := ⟨"/health", "GET /health HTTP/1.1"⟩

/-! Helper lemmas about dispatch and string appending. -/

/-- Dispatch on the root path calls the single registered view. -/
theorem handleRequest_root (env : Env) (req : Request) (h : req.path = "/") :
    handleRequest env req = ⟨200, hello env⟩ := by
  simp [handleRequest, routeTable, List.find?, h]

/-- Dispatch on any other path falls through the route table. -/
theorem handleRequest_other (env : Env) (req : Request) (h : req.path ≠ "/") :
    handleRequest env req = ⟨404, notFoundBody⟩ := by
  have hb : ("/" == req.path) = false := by
    simpa [beq_eq_false_iff_ne] using Ne.symm h
  simp [handleRequest, routeTable, List.find?, hb]

/-- Stateful dispatch on the root path calls the single registered view. -/
theorem handleRequestS_root (st : ProcState) (req : Request) (h : req.path = "/") :
    handleRequestS st req = (⟨200, (helloS st).1⟩, (helloS st).2) := by
  simp [handleRequestS, routeTableS, List.find?, h]

/-- Stateful dispatch on any other path falls through the route table. -/
theorem handleRequestS_other (st : ProcState) (req : Request) (h : req.path ≠ "/") :
    handleRequestS st req = (⟨404, notFoundBody⟩, st) := by
  have hb : ("/" == req.path) = false := by
    simpa [beq_eq_false_iff_ne] using Ne.symm h
  simp [handleRequestS, routeTableS, List.find?, hb]

set_option maxRecDepth 8000 in
/-- The framework default not-found body is not a greeting: it differs
from the greeting text followed by any hostname rendering, already at the
first character. -/
theorem notFoundBody_ne_greeting (rest : String) :
    notFoundBody ≠ greetingHead ++ rest := by
  intro hc
  have hd : notFoundBody.data = greetingHead.data ++ rest.data := by
    simpa [String.data_append] using congrArg String.data hc
  have h0 : notFoundBody.data[0]? = (greetingHead.data ++ rest.data)[0]? := by
    rw [hd]
  have hl : (0 : Nat) < greetingHead.data.length := by decide
  rw [List.getElem?_append_left hl] at h0
  revert h0
  decide

/-- Appending to a fixed string on the left is injective. -/
theorem string_append_left_cancel {s t u : String} (h : s ++ t = s ++ u) :
    t = u := by
  have hd : s.data ++ t.data = s.data ++ u.data := by
    simpa [String.data_append] using congrArg String.data h
  exact String.ext (List.append_cancel_left hd)

/-! The claims. -/

/-- C1: for every HTTP request to path `/`, and whatever HOSTNAME holds
(set or unset), the handler returns a response with status 200 whose body
starts with the literal text "Hello from Odigos Sample App! Running in ". -/
theorem root_response_status_and_greeting_head (env : Env) (req : Request)
    (h : req.path = "/") :
    (handleRequest env req).status = 200 ∧
    ∃ rest, (handleRequest env req).body = greetingHead ++ rest := by
  rw [handleRequest_root env req h]
  exact ⟨rfl, pyFormatOpt (getenv env "HOSTNAME"), rfl⟩

/-- Witness for C1 at a concrete unset environment and a concrete root
request. -/
theorem root_response_status_and_greeting_head_witness :
    (handleRequest envUnset reqRoot).status = 200 ∧
    ∃ rest, (handleRequest envUnset reqRoot).body = greetingHead ++ rest :=
  root_response_status_and_greeting_head envUnset reqRoot rfl

/-- C2: if HOSTNAME is set to V when a request to `/` is handled, the
response body equals the fixed greeting text followed by V, and in
particular ends with V. -/
theorem root_body_ends_with_hostname (env : Env) (v : String) (req : Request)
    (h : req.path = "/") (hv : getenv env "HOSTNAME" = some v) :
    (handleRequest env req).body = greetingHead ++ v ∧
    ∃ front, (handleRequest env req).body = front ++ v := by
  rw [handleRequest_root env req h]
  exact ⟨by simp [hello, hv, pyFormatOpt], greetingHead,
    by simp [hello, hv, pyFormatOpt]⟩

/-- Witness for C2 with HOSTNAME set to "pod-1". -/
theorem root_body_ends_with_hostname_witness :
    (handleRequest envSet reqRoot).body = greetingHead ++ "pod-1" ∧
    ∃ front, (handleRequest envSet reqRoot).body = front ++ "pod-1" :=
  root_body_ends_with_hostname envSet "pod-1" reqRoot rfl rfl

/-- C3: if HOSTNAME is unset when a request to `/` is handled, the
handler does not fail (its exception-explicit form returns `ok`) and the
response body ends with "None", Python's rendering of the absent value. -/
theorem root_unset_hostname_no_failure (env : Env) (req : Request)
    (h : req.path = "/") (hv : getenv env "HOSTNAME" = none) :
    helloE env = Except.ok (hello env) ∧
    ∃ front, (handleRequest env req).body = front ++ "None" := by
  rw [handleRequest_root env req h]
  exact ⟨rfl, greetingHead, by simp [hello, hv, pyFormatOpt]⟩

/-- Witness for C3 at a concrete environment with HOSTNAME unset. -/
theorem root_unset_hostname_no_failure_witness :
    helloE envUnset = Except.ok (hello envUnset) ∧
    ∃ front, (handleRequest envUnset reqRoot).body = front ++ "None" :=
  root_unset_hostname_no_failure envUnset reqRoot rfl rfl

/-- C4: HOSTNAME is read at request-handling time, not cached at startup:
a request to `/` handled under environment `e1` reflects `e1` and one
handled under `e2` reflects `e2`; in particular, changing HOSTNAME from
one set value to a different set value between requests changes the
response body. -/
theorem hostname_read_per_request (e1 e2 : Env) (req : Request)
    (h : req.path = "/") :
    (handleRequest e1 req).body = greetingHead ++ pyFormatOpt (getenv e1 "HOSTNAME") ∧
    (handleRequest e2 req).body = greetingHead ++ pyFormatOpt (getenv e2 "HOSTNAME") ∧
    ∀ v1 v2, getenv e1 "HOSTNAME" = some v1 → getenv e2 "HOSTNAME" = some v2 →
      v1 ≠ v2 → (handleRequest e1 req).body ≠ (handleRequest e2 req).body := by
  rw [handleRequest_root e1 req h, handleRequest_root e2 req h]
  refine ⟨rfl, rfl, fun v1 v2 h1 h2 hne hbody => hne ?_⟩
  have : greetingHead ++ v1 = greetingHead ++ v2 := by
    simpa [hello, h1, h2, pyFormatOpt] using hbody
  exact string_append_left_cancel this

/-- Witness for C4: two concrete environments setting HOSTNAME to
different values yield different response bodies for the same request. -/
theorem hostname_read_per_request_witness :
    (handleRequest envSet reqRoot).body =
      greetingHead ++ pyFormatOpt (getenv envSet "HOSTNAME") ∧
    (handleRequest envSet2 reqRoot).body =
      greetingHead ++ pyFormatOpt (getenv envSet2 "HOSTNAME") ∧
    ∀ v1 v2, getenv envSet "HOSTNAME" = some v1 → getenv envSet2 "HOSTNAME" = some v2 →
      v1 ≠ v2 → (handleRequest envSet reqRoot).body ≠ (handleRequest envSet2 reqRoot).body :=
  hostname_read_per_request envSet envSet2 reqRoot rfl

/-- C5: no cross-request interference: two requests to `/` handled under
the same environment state receive identical responses, whatever their
other contents; the response depends only on the environment. -/
theorem no_cross_request_interference (env : Env) (r1 r2 : Request)
    (h1 : r1.path = "/") (h2 : r2.path = "/") :
    handleRequest env r1 = handleRequest env r2 := by
  rw [handleRequest_root env r1 h1, handleRequest_root env r2 h2]

/-- Witness for C5: two concrete root requests with different payloads
receive the same response. -/
theorem no_cross_request_interference_witness :
    handleRequest envSet reqRoot = handleRequest envSet reqRoot2 :=
  no_cross_request_interference envSet reqRoot reqRoot2 rfl rfl

/-- C6: when HOSTNAME is unset, the response body for a request to `/` is
exactly "Hello from Odigos Sample App! Running in None": the code pins
the absent-value rendering to Python's "None", not the empty string. -/
theorem root_unset_hostname_exact_body (env : Env) (req : Request)
    (h : req.path = "/") (hv : getenv env "HOSTNAME" = none) :
    (handleRequest env req).body =
      "Hello from Odigos Sample App! Running in None" := by
  rw [handleRequest_root env req h]
  show hello env = _
  rw [hello, hv]
  rfl

/-- Witness for C6 at a concrete environment with HOSTNAME unset. -/
theorem root_unset_hostname_exact_body_witness :
    (handleRequest envUnset reqRoot).body =
      "Hello from Odigos Sample App! Running in None" :=
  root_unset_hostname_exact_body envUnset reqRoot rfl rfl

/-- C7: the handler cannot fail under normal operation: for every
environment state the exception-explicit handler body returns `ok` with
the greeting (it never reaches an error outcome), and dispatch is total,
answering every request with either a 200 or a 404 response. -/
theorem hello_total_never_fails (env : Env) :
    (helloE env = Except.ok (hello env) ∧ ∀ msg, helloE env ≠ Except.error msg) ∧
    ∀ req : Request, (handleRequest env req).status = 200 ∨
      (handleRequest env req).status = 404 := by
  refine ⟨⟨rfl, fun msg hc => by simp [helloE] at hc⟩, fun req => ?_⟩
  by_cases h : req.path = "/"
  · exact Or.inl (by rw [handleRequest_root env req h])
  · exact Or.inr (by rw [handleRequest_other env req h])

/-- Witness for C7 at a concrete environment and request. -/
theorem hello_total_never_fails_witness :
    helloE envUnset = Except.ok (hello envUnset) ∧
    ((handleRequest envUnset reqRoot).status = 200 ∨
      (handleRequest envUnset reqRoot).status = 404) :=
  ⟨(hello_total_never_fails envUnset).1.1,
   (hello_total_never_fails envUnset).2 reqRoot⟩

/-- C8: handling a request has no side effect beyond the response: the
explicitly state-passing dispatcher returns the process state unchanged,
and its response agrees with the pure dispatcher reading the same
environment. -/
theorem handler_leaves_state_unchanged (st : ProcState) (req : Request) :
    (handleRequestS st req).2 = st ∧
    (handleRequestS st req).1 = handleRequest st.environ req := by
  by_cases h : req.path = "/"
  · rw [handleRequestS_root st req h, handleRequest_root st.environ req h]
    exact ⟨rfl, rfl⟩
  · rw [handleRequestS_other st req h, handleRequest_other st.environ req h]
    exact ⟨rfl, rfl⟩

/-- C9: `/` is the only registered route, and a request to any other path
receives the framework default not-found response, with status 404 and a
body that is never the greeting (it is not the greeting text followed by
anything). -/
theorem non_root_path_not_found (env : Env) (req : Request)
    (h : req.path ≠ "/") :
    routeTable.map Prod.fst = ["/"] ∧
    (handleRequest env req).status = 404 ∧
    ∀ rest, (handleRequest env req).body ≠ greetingHead ++ rest := by
  rw [handleRequest_other env req h]
  exact ⟨rfl, rfl, notFoundBody_ne_greeting⟩

/-- Witness for C9 at a concrete request to `/health`. -/
theorem non_root_path_not_found_witness :
    routeTable.map Prod.fst = ["/"] ∧
    (handleRequest envSet reqOther).status = 404 ∧
    ∀ rest, (handleRequest envSet reqOther).body ≠ greetingHead ++ rest :=
  non_root_path_not_found envSet reqOther (by decide)

/-- C10: the main guard runs the server bound to all interfaces (host
"0.0.0.0") on the fixed port 8080; startup succeeds when that port is
free and fails when it is already occupied. -/
theorem main_run_config_and_port_binding :
    mainRunConfig.host = "0.0.0.0" ∧ mainRunConfig.port = 8080 ∧
    (∀ occupied : Nat → Bool, occupied 8080 = false →
      startServer occupied mainRunConfig = Except.ok ()) ∧
    (∀ occupied : Nat → Bool, occupied 8080 = true →
      ∃ msg, startServer occupied mainRunConfig = Except.error msg) := by
  refine ⟨rfl, rfl, fun occupied hfree => ?_, fun occupied hbusy => ?_⟩
  · simp [startServer, mainRunConfig, hfree]
  · exact ⟨"Address already in use", by simp [startServer, mainRunConfig, hbusy]⟩

/-- Witness for C10: startup succeeds when no port is occupied and fails
when every port is occupied. -/
theorem main_run_config_and_port_binding_witness :
    startServer (fun _ => false) mainRunConfig = Except.ok () ∧
    ∃ msg, startServer (fun _ => true) mainRunConfig = Except.error msg :=
  ⟨main_run_config_and_port_binding.2.2.1 (fun _ => false) rfl,
   main_run_config_and_port_binding.2.2.2 (fun _ => true) rfl⟩

end SampleApp
